import Mathlib

/-!
Shallow embedding of the offset-paginated fetch engine of
`src/offset-paginated-ng-select-state.ts` (the `offsetPaginatedNgSelectState`
factory), together with the small pieces of `src/dynamic-table-state-helper.ts`
(`NgSelectHelper.runLimitReachedCheck`) that the claims compare against.

Conventions of the embedding:
* JavaScript numbers that hold counts are modelled as `Int` (payload lengths
  are `Nat` and coerced where the source compares them with a count).
* JavaScript objects used as string-keyed records (query parameters, cache,
  raw response bodies) are modelled as association lists preserving insertion
  order, which is exactly the property ordering `JSON.stringify` observes.
* Angular signals are modelled as record fields; a signal `set`/`update` is a
  functional record update.
* The RxJS fetch pipeline is modelled as a function from the engine state and
  one externally supplied transport event (a raw response, a transport error,
  or an abort fired by the reset notifier) to a `FetchOutcome` recording the
  number of transport calls, whether the error callback ran, the emitted
  value (`none` models the `of(null)` produced by `catchError` and the empty
  emission of `takeUntil`), and the post-pipeline state.
-/

/-- Primitive JSON-like values appearing in query parameters and request
bodies (`string | number | boolean` plus `null`).  String escaping performed
by `JSON.stringify` is omitted; all concrete inputs used below contain no
characters that would need escaping. -/
inductive JVal where
  | jnull : JVal
  | jbool : Bool → JVal
  | jnum : Int → JVal
  | jstr : String → JVal
deriving DecidableEq, Repr

/-- The `requestMethod` option, typed `"GET" | "POST"` in the source. -/
inductive RequestMethod where
  | get : RequestMethod
  | post : RequestMethod
deriving DecidableEq, Repr

/-- The `DataContainer<T>` shape: `{ payload: T[]; totalCount: number }`. -/
structure DataContainer (T : Type) where
  payload : List T
  totalCount : Int
deriving DecidableEq, Repr

/-- The `defaultData<T>()` factory: `{ payload: [], totalCount: 0 }`. -/
def defaultData (T : Type) : DataContainer T :=
  { payload := [], totalCount := 0 }

/-- One property value of a raw (unvalidated) response body: an array, a
number, or a value of any other runtime type. -/
inductive RawField (T : Type) where
  | arr : List T → RawField T
  | num : Int → RawField T
  | other : RawField T
deriving DecidableEq, Repr

/-- A raw response body: `none` models a value that is not a plain object
(`null`, an array, a primitive); `some fields` models an object with the
given properties in insertion order. -/
abbrev RawData (T : Type) := Option (List (String × RawField T))

/-- First-match association-list lookup, the JS property access `o[k]`. -/
def assocGet {β : Type} : List (String × β) → String → Option β
  | [], _ => none
  | (k0, v0) :: rest, k => if k0 = k then some v0 else assocGet rest k

/-- Property assignment `o[k] = v`: overwrites in place when the key exists,
otherwise appends (JS objects append new string keys at the end). -/
def assocSet {β : Type} : List (String × β) → String → β → List (String × β)
  | [], k, v => [(k, v)]
  | (k0, v0) :: rest, k, v =>
      if k0 = k then (k0, v) :: rest else (k0, v0) :: assocSet rest k v

/-- Property removal `delete o[k]`. -/
def assocDelete {β : Type} (ps : List (String × β)) (k : String) :
    List (String × β) :=
  ps.filter (fun p => p.1 ≠ k)

/-- The construction-time options after defaulting
(`optionsWithDefaultValue` in the source), restricted to the fields the
modelled operations read. -/
structure EngineOptions where
  url : String
  searchQueryParamKey : String := "searchText"
  pageQueryParamKey : String := "page"
  limitQueryParamKey : String := "limit"
  dataArrayKey : String := "payload"
  totalDataCountKey : String := "totalCount"
  searchOnlyMode : Bool := false
  requestMethod : RequestMethod := RequestMethod.get
  queryParams : List (String × JVal) := []
  postRequestBody : JVal := JVal.jnull
  dataLimitPerRequest : Nat := 20
  useCache : Bool := false
deriving DecidableEq, Repr

/-- The lower-cased reserved query keys (`blackListedQueryKeys`). -/
def blackListedKeys (opts : EngineOptions) : List String :=
  [opts.searchQueryParamKey.toLower, opts.pageQueryParamKey.toLower,
   opts.limitQueryParamKey.toLower]

/-- The construction-time loop deleting reserved keys (case-insensitively)
from the caller-supplied `queryParams`. -/
def stripBlacklisted (opts : EngineOptions) (ps : List (String × JVal)) :
    List (String × JVal) :=
  ps.filter (fun p => ¬ (blackListedKeys opts).contains p.1.toLower)

/-- The mutable `internalState` of one engine instance: each field is one
signal (or, for `cache`, the `Map<string, DataContainer<TData>>`). -/
structure EngineState (T : Type) where
  currentPage : Nat
  isCurrentPageSuccessful : Bool
  isAllDataLoaded : Bool
  isLoading : Bool
  isSelectPanelOpen : Bool
  searchText : Option String
  loadedData : DataContainer T
  cache : List (String × DataContainer T)
  postRequestBody : JVal
  queryParamsFromUser : List (String × JVal)
deriving DecidableEq, Repr

/-- The initial `internalState` built in the factory body. -/
def initialState (T : Type) (opts : EngineOptions) : EngineState T :=
  { currentPage := 1
    isCurrentPageSuccessful := false
    isAllDataLoaded := false
    isLoading := false
    isSelectPanelOpen := false
    searchText := none
    loadedData := defaultData T
    cache := []
    postRequestBody := opts.postRequestBody
    queryParamsFromUser := stripBlacklisted opts opts.queryParams }

/-- The `reset` function with the default reset options
(`resetQueryParams`, `resetBody` and `resetCache` all false); the
`apiCallAbortNotifier.next()` it fires is modelled by the `aborted` fetch
event delivered to any in-flight pipeline. -/
def resetState {T : Type} (s : EngineState T) : EngineState T :=
  { s with
    currentPage := 1
    isCurrentPageSuccessful := false
    searchText := none
    loadedData := defaultData T
    isAllDataLoaded := false
    isLoading := false }

/-- The `cleanNullishFromObject` utility of `src/utils.ts`: drops entries
whose value is nullish (`v != null`). -/
def cleanNullishFromObject (ps : List (String × JVal)) : List (String × JVal) :=
  ps.filter (fun p => p.2 ≠ JVal.jnull)

/-- The `finalQueryParams` computed signal: an object literal holding the
page and limit entries followed by the cleaned user parameters (spread
order; the blacklist guarantees the user parameters collide with neither
reserved key), then the search-text property assignment or deletion. -/
def finalQueryParams {T : Type} (opts : EngineOptions) (s : EngineState T) :
    List (String × JVal) :=
  let val := (opts.pageQueryParamKey, JVal.jnum (s.currentPage : Int)) ::
    (opts.limitQueryParamKey, JVal.jnum (opts.dataLimitPerRequest : Int)) ::
    cleanNullishFromObject s.queryParamsFromUser
  match s.searchText with
  | some t => assocSet val opts.searchQueryParamKey (JVal.jstr t)
  | none => assocDelete val opts.searchQueryParamKey

/-- Serialization of one primitive value, as `JSON.stringify` renders it. -/
def stringifyJVal : JVal → String
  | JVal.jnull => "null"
  | JVal.jbool true => "true"
  | JVal.jbool false => "false"
  | JVal.jnum n => toString n
  | JVal.jstr s => "\"" ++ s ++ "\""

/-- Serialization of a string-keyed record, in insertion order, as
`JSON.stringify` renders a plain object. -/
def stringifyParams (ps : List (String × JVal)) : String :=
  "\x7b" ++
    String.intercalate ","
      (ps.map (fun p => "\"" ++ p.1 ++ "\":" ++ stringifyJVal p.2)) ++
    "\x7d"

/-- The cache-key builder of `loadDataFromApi`: the `CacheKey` object
literal `\x7b url, body, queryParams \x7d` with the `body` property deleted
when the configured method is not `"POST"`, rendered by `JSON.stringify`. -/
def buildCacheKey (requestMethod : RequestMethod) (url : String) (body : JVal)
    (queryParams : List (String × JVal)) : String :=
  "\x7b\"url\":\"" ++ url ++ "\"" ++
    (if requestMethod = RequestMethod.post then
      ",\"body\":" ++ stringifyJVal body
    else "") ++
    ",\"queryParams\":" ++ stringifyParams queryParams ++ "\x7d"

/-- The cache key the engine builds for its current state. -/
def cacheKeyOf {T : Type} (opts : EngineOptions) (s : EngineState T) : String :=
  buildCacheKey opts.requestMethod opts.url s.postRequestBody
    (finalQueryParams opts s)

/-- The `isValidData` response-shape validator: the body must be a plain
object owning both configured keys, the data key must hold an array and the
count key a number. -/
def isValidData {T : Type} (dataArrayKey dataCountKey : String)
    (rawData : RawData T) : Bool :=
  match rawData with
  | none => false
  | some fields =>
    match assocGet fields dataArrayKey, assocGet fields dataCountKey with
    | some (RawField.arr _), some (RawField.num _) => true
    | _, _ => false

/-- Extraction of the `DataContainer` from a validated body
(`rawData[dataArrayKey] ?? []`, `rawData[totalDataCountKey] ?? 0`). -/
def extractContainer {T : Type} (opts : EngineOptions)
    (fields : List (String × RawField T)) : DataContainer T :=
  { payload :=
      match assocGet fields opts.dataArrayKey with
      | some (RawField.arr items) => items
      | _ => []
    totalCount :=
      match assocGet fields opts.totalDataCountKey with
      | some (RawField.num n) => n
      | _ => 0 }

/-- One transport event resolving a network fetch: a raw HTTP response body,
a transport-level error, or an abort fired by `apiCallAbortNotifier`
(observed through `takeUntil`) while the request was in flight. -/
inductive FetchEvent (T : Type) where
  | response : RawData T → FetchEvent T
  | transportError : FetchEvent T
  | aborted : FetchEvent T
deriving DecidableEq, Repr

/-- The observable outcome of running the fetch pipeline once:
`transportCalls` counts HTTP requests issued, `fetchAttempted` records that
`loadDataFromApi` ran at all (false when a guard short-circuited to
`of(null)`), `errorReported` records an `onError` invocation, `result` is
the value the pipeline emitted (`none` for the `of(null)` of `catchError`
and for the empty emission after an abort), `state` the state afterwards. -/
structure FetchOutcome (T : Type) where
  transportCalls : Nat
  fetchAttempted : Bool
  errorReported : Bool
  result : Option (DataContainer T)
  state : EngineState T
deriving DecidableEq, Repr

/-- The network half of `loadDataFromApi`: the deferred request sets
`isLoading` to true on subscription; the pipe then validates the shape
(throwing into `catchError`, which invokes `onError` and emits `null`),
stores a valid container into the cache when `strKey` is set (caching
enabled), and `finalize` restores `isLoading := false` on success, error and
abort alike. -/
def networkFetch {T : Type} (opts : EngineOptions) (s : EngineState T)
    (strKey : Option String) (ev : FetchEvent T) : FetchOutcome T :=
  let s1 := { s with isLoading := true }
  match ev with
  | FetchEvent.aborted =>
      { transportCalls := 1, fetchAttempted := true, errorReported := false,
        result := none, state := { s1 with isLoading := false } }
  | FetchEvent.transportError =>
      { transportCalls := 1, fetchAttempted := true, errorReported := true,
        result := none, state := { s1 with isLoading := false } }
  | FetchEvent.response raw =>
      if isValidData opts.dataArrayKey opts.totalDataCountKey raw then
        let d := extractContainer opts (raw.getD [])
        let s2 :=
          match strKey with
          | some k => { s1 with cache := assocSet s1.cache k d }
          | none => s1
        { transportCalls := 1, fetchAttempted := true, errorReported := false,
          result := some d, state := { s2 with isLoading := false } }
      else
        { transportCalls := 1, fetchAttempted := true, errorReported := true,
          result := none, state := { s1 with isLoading := false } }

/-- The `loadDataFromApi` closure: builds the cache key, and on a cache hit
returns `of(cacheData)` untouched by the network pipeline (no transport
call, no `isLoading` transition); otherwise issues the request, passing the
key for the cache-storing `tap` when caching is enabled. -/
def loadDataFromApi {T : Type} (opts : EngineOptions) (s : EngineState T)
    (ev : FetchEvent T) : FetchOutcome T :=
  let strKey := cacheKeyOf opts s
  if opts.useCache then
    match assocGet s.cache strKey with
    | some cached =>
        { transportCalls := 0, fetchAttempted := true, errorReported := false,
          result := some cached, state := s }
    | none => networkFetch opts s (some strKey) ev
  else networkFetch opts s none ev

/-- The success-merge routine `handleApiResponse`: marks the current page
successful, appends a non-empty payload (overwriting the stored
`totalCount`), and recomputes `isAllDataLoaded` by comparing the accumulated
length with the newly reported `totalCount`. -/
def handleApiResponse {T : Type} (s : EngineState T) (newData : DataContainer T) :
    EngineState T :=
  let s1 := { s with isCurrentPageSuccessful := true }
  let s2 :=
    if 0 < newData.payload.length then
      { s1 with
        loadedData :=
          { payload := s1.loadedData.payload ++ newData.payload,
            totalCount := newData.totalCount } }
    else s1
  { s2 with
    isAllDataLoaded :=
      ((s2.loadedData.payload.length : Int) == newData.totalCount) }

/-- One run of the fetch pipeline together with the
`apiCallNotification` subscriber: a non-null emission is handed to
`handleApiResponse`, a null emission (failure or abort) is filtered out. -/
def fetchAndHandle {T : Type} (opts : EngineOptions) (s : EngineState T)
    (ev : FetchEvent T) : FetchOutcome T :=
  let o := loadDataFromApi opts s ev
  match o.result with
  | some d => { o with state := handleApiResponse o.state d }
  | none => o

/-- The guard in the `apiCallNotification` pipe: a notification is dropped
(`of(null)`) while loading, after all data is loaded, or while the select
panel is closed; otherwise one fetch runs. -/
def notifyApiCall {T : Type} (opts : EngineOptions) (s : EngineState T)
    (ev : FetchEvent T) : FetchOutcome T :=
  if s.isLoading || s.isAllDataLoaded || !s.isSelectPanelOpen then
    { transportCalls := 0, fetchAttempted := false, errorReported := false,
      result := none, state := s }
  else fetchAndHandle opts s ev

/-- The `onScrollToEnd` handler followed by the notification it posts:
returns early when all data is loaded, a fetch is in flight, or the panel is
closed; increments the page only when `isCurrentPageSuccessful` is set; then
notifies, which runs one guarded fetch resolved by `ev`. -/
def onScrollToEnd {T : Type} (opts : EngineOptions) (s : EngineState T)
    (ev : FetchEvent T) : FetchOutcome T :=
  if s.isAllDataLoaded || s.isLoading || !s.isSelectPanelOpen then
    { transportCalls := 0, fetchAttempted := false, errorReported := false,
      result := none, state := s }
  else
    let s1 :=
      if s.isCurrentPageSuccessful then { s with currentPage := s.currentPage + 1 }
      else s
    notifyApiCall opts s1 ev

/-- The `typeAhead$` subscriber body run for one settled search term:
`reset()`, the search-only empty-term suppression, then storing the settled
term and notifying, which runs one guarded fetch resolved by `ev`. -/
def onSettledSearchTerm {T : Type} (opts : EngineOptions) (s : EngineState T)
    (finalValue : String) (ev : FetchEvent T) : FetchOutcome T :=
  let s1 := resetState s
  if opts.searchOnlyMode = true ∧ finalValue = "" then
    { transportCalls := 0, fetchAttempted := false, errorReported := false,
      result := none, state := s1 }
  else
    let s2 := { s1 with searchText := some finalValue }
    notifyApiCall opts s2 ev

/-- The chainable `setBody` method: a reset followed by storing the new body
when the configured method is `"POST"`, otherwise nothing; `return this` is
modelled by returning the (unchanged) state. -/
def setBody {T : Type} (opts : EngineOptions) (s : EngineState T) (value : JVal) :
    EngineState T :=
  if opts.requestMethod = RequestMethod.post then
    { resetState s with postRequestBody := value }
  else s

/-- The chainable `clearBody` method: a reset followed by storing `null`
when the configured method is `"POST"`, otherwise nothing. -/
def clearBody {T : Type} (opts : EngineOptions) (s : EngineState T) :
    EngineState T :=
  if opts.requestMethod = RequestMethod.post then
    { resetState s with postRequestBody := JVal.jnull }
  else s

/-- Folding a sequence of successful responses through `handleApiResponse`,
in arrival order. -/
def mergePages {T : Type} (s : EngineState T) (pages : List (DataContainer T)) :
    EngineState T :=
  pages.foldl handleApiResponse s

/-- The reported `totalCount` of the most recent page of a sequence. -/
def lastTotalCount {T : Type} (pages : List (DataContainer T)) : Int :=
  match pages.getLast? with
  | some p => p.totalCount
  | none => 0

/-- Decides that a fetch sequence respects the engine's issue guard: before
each fetch of the sequence, `isAllDataLoaded` is still false. -/
def respectsGuardB {T : Type} : EngineState T → List (DataContainer T) → Bool
  | _, [] => true
  | s, p :: ps => !s.isAllDataLoaded && respectsGuardB (handleApiResponse s p) ps

/-- Decides that every page of a sequence fits inside its own reported
`totalCount`: the accumulated length after merging the page does not exceed
the count that very page reported. -/
def pagesFitReportedCountB {T : Type} :
    EngineState T → List (DataContainer T) → Bool
  | _, [] => true
  | s, p :: ps =>
      (decide ((s.loadedData.payload.length + p.payload.length : Int) ≤ p.totalCount))
        && pagesFitReportedCountB (handleApiResponse s p) ps

/-- The `runLimitReachedCheck` of `NgSelectHelper` in
`src/dynamic-table-state-helper.ts`: when `totalCount` is not the unknown
sentinel `-1`, sets `limitReached` to `loadedLength >= totalCount`,
otherwise leaves it unchanged. -/
def runLimitReachedCheck (totalCount : Int) (loadedLength : Nat)
    (limitReached : Bool) : Bool :=
  if totalCount ≠ -1 then decide ((totalCount : Int) ≤ (loadedLength : Int))
  else limitReached

/-- A concrete option record with every default (GET, no cache, standard
keys), used by the concrete evaluations below. -/
def wOpts : EngineOptions := { url := "/api/items" }

/-- A concrete option record with caching enabled. -/
def wCacheOpts : EngineOptions := { url := "/api/items", useCache := true }

/-- The initial state with the select panel opened (`onOpen`). -/
def wOpenState : EngineState Nat :=
  { initialState Nat wOpts with isSelectPanelOpen := true }

/-- The opened initial state of the caching engine, before any cache
entry exists. -/
def wBaseState : EngineState Nat :=
  { initialState Nat wCacheOpts with isSelectPanelOpen := true }

/-- A concrete cached page. -/
def wCachedPage : DataContainer Nat := { payload := [7, 8], totalCount := 9 }

/-- The opened caching state holding one cache entry under exactly the key
the engine builds for it (the cache field itself is not an input of the key
builder, so the key of `wCacheState` equals the key of `wBaseState`). -/
def wCacheState : EngineState Nat :=
  { wBaseState with cache := [(cacheKeyOf wCacheOpts wBaseState, wCachedPage)] }

/-- A well-formed fetch sequence: two pages of two items, both reporting
five as the total. -/
def wPages : List (DataContainer Nat) :=
  [{ payload := [1, 2], totalCount := 5 }, { payload := [3, 4], totalCount := 5 }]

/-- A guard-respecting fetch sequence whose second page overflows its own
freshly reported total: three items arrive on top of three accumulated ones
while the server now reports a total of four. -/
def cexPages : List (DataContainer Nat) :=
  [{ payload := [1, 2, 3], totalCount := 5 }, { payload := [4, 5, 6], totalCount := 4 }]

/-- A valid raw response body for page one: one item, total five. -/
def rawPage1 : RawData Nat :=
  some [("payload", RawField.arr [10]), ("totalCount", RawField.num 5)]

/-- A raw response body missing the count key (Scenario C shape). -/
def rawMissingCount : RawData Nat := some [("payload", RawField.arr [11])]

/-- The state after the first successful page-one fetch of the opened
engine: one loaded item, current page one, page marked successful. -/
def sAfterP1 : EngineState Nat :=
  (notifyApiCall wOpts wOpenState (FetchEvent.response rawPage1)).state

/-- Scroll after the page-one success, resolved by a transport error: the
page advances to two and the page-two fetch fails. -/
def oScroll1 : FetchOutcome Nat :=
  onScrollToEnd wOpts sAfterP1 FetchEvent.transportError

/-- A second scroll issued right after the failed page-two fetch. -/
def oScroll2 : FetchOutcome Nat :=
  onScrollToEnd wOpts oScroll1.state FetchEvent.aborted

/-- A transport failure arriving while page one is already merged. -/
def oFail : FetchOutcome Nat := fetchAndHandle wOpts sAfterP1 FetchEvent.transportError

/-- A response with an invalid shape (missing count key) arriving while
page one is already merged. -/
def oInvalid : FetchOutcome Nat :=
  fetchAndHandle wOpts sAfterP1 (FetchEvent.response rawMissingCount)

/-- Two extra-parameter records equal as key/value sets, differing only in
insertion order. -/
def qpA : List (String × JVal) := [("a", JVal.jnum 1), ("b", JVal.jnum 2)]

/-- The same record as `qpA` with the two entries swapped. -/
def qpB : List (String × JVal) := [("b", JVal.jnum 2), ("a", JVal.jnum 1)]

/-- Merging always concatenates exactly the returned items after the
accumulated ones (an empty payload skips the signal update, which equals
appending nothing). -/
theorem handleApiResponse_payload {T : Type} (s : EngineState T) (d : DataContainer T) :
    (handleApiResponse s d).loadedData.payload = s.loadedData.payload ++ d.payload := by
  unfold handleApiResponse
  by_cases h : 0 < d.payload.length
  · simp [h]
  · have hnil : d.payload = [] := List.length_eq_zero.mp (Nat.eq_zero_of_not_pos h)
    simp [h, hnil]

/-- Merging always sets the current-page-successful flag. -/
theorem handleApiResponse_success_flag {T : Type} (s : EngineState T) (d : DataContainer T) :
    (handleApiResponse s d).isCurrentPageSuccessful = true := by
  unfold handleApiResponse
  by_cases h : 0 < d.payload.length <;> simp [h]

/-- Merging never touches the loading flag. -/
theorem handleApiResponse_isLoading {T : Type} (s : EngineState T) (d : DataContainer T) :
    (handleApiResponse s d).isLoading = s.isLoading := by
  unfold handleApiResponse
  by_cases h : 0 < d.payload.length <;> simp [h]

/-- The network pipeline always terminates with the loading flag cleared
(`finalize` runs on success, error and abort alike). -/
theorem networkFetch_isLoading {T : Type} (opts : EngineOptions) (s : EngineState T)
    (strKey : Option String) (ev : FetchEvent T) :
    (networkFetch opts s strKey ev).state.isLoading = false := by
  unfold networkFetch
  cases ev with
  | aborted => rfl
  | transportError => rfl
  | response raw =>
      by_cases hv : isValidData opts.dataArrayKey opts.totalDataCountKey raw
      · cases strKey <;> simp [hv]
      · simp [hv]

/-- The fetch closure always runs once entered: every branch of
`loadDataFromApi` reports an attempted fetch. -/
theorem fetchAndHandle_attempted {T : Type} (opts : EngineOptions) (s : EngineState T)
    (ev : FetchEvent T) :
    (fetchAndHandle opts s ev).fetchAttempted = true := by
  unfold fetchAndHandle loadDataFromApi networkFetch
  by_cases hc : opts.useCache
  · simp only [hc, if_true]
    cases hhit : assocGet s.cache (cacheKeyOf opts s) with
    | some cached => simp [hhit]
    | none =>
        simp only [hhit]
        cases ev with
        | aborted => rfl
        | transportError => rfl
        | response raw =>
            by_cases hv : isValidData opts.dataArrayKey opts.totalDataCountKey raw
            · simp [hv]
            · simp [hv]
  · simp only [hc, if_false]
    cases ev with
    | aborted => rfl
    | transportError => rfl
    | response raw =>
        by_cases hv : isValidData opts.dataArrayKey opts.totalDataCountKey raw
        · simp [hv]
        · simp [hv]

/-- Accumulated payload after a fold of merges: the initial payload followed
by all returned payloads, in arrival order. -/
theorem mergePages_payload {T : Type} (pages : List (DataContainer T)) (s : EngineState T) :
    (mergePages s pages).loadedData.payload
      = s.loadedData.payload ++ (pages.map (fun p => p.payload)).flatten := by
  induction pages generalizing s with
  | nil => simp [mergePages]
  | cons p ps ih =>
      show (mergePages (handleApiResponse s p) ps).loadedData.payload = _
      rw [ih, handleApiResponse_payload]
      simp [List.append_assoc]

/-- Accumulated length after a fold of merges: the initial length plus the
sum of the returned page sizes. -/
theorem mergePages_length {T : Type} (pages : List (DataContainer T)) (s : EngineState T) :
    (mergePages s pages).loadedData.payload.length
      = s.loadedData.payload.length + (pages.map (fun p => p.payload.length)).sum := by
  rw [mergePages_payload]
  simp only [List.length_append, List.length_flatten, List.map_map]
  rfl

/-- When every page of a nonempty sequence fits inside its own reported
total, the accumulated length stays below the most recently reported
total. -/
theorem mergePages_le_lastTotalCount {T : Type} (pages : List (DataContainer T))
    (s : EngineState T) (hfit : pagesFitReportedCountB s pages = true)
    (hne : pages ≠ []) :
    ((mergePages s pages).loadedData.payload.length : Int) ≤ lastTotalCount pages := by
  induction pages generalizing s with
  | nil => exact absurd rfl hne
  | cons p ps ih =>
      rw [pagesFitReportedCountB, Bool.and_eq_true] at hfit
      have h1 : ((s.loadedData.payload.length : Int) + (p.payload.length : Int))
          ≤ p.totalCount := by
        have := of_decide_eq_true hfit.1
        exact_mod_cast this
      cases ps with
      | nil =>
          show ((handleApiResponse s p).loadedData.payload.length : Int)
            ≤ lastTotalCount [p]
          rw [handleApiResponse_payload]
          simp only [lastTotalCount, List.getLast?_singleton]
          rw [List.length_append]
          push_cast
          exact h1
      | cons q qs =>
          have hrec := ih (handleApiResponse s p) hfit.2 (by simp)
          have hlast : lastTotalCount (p :: q :: qs) = lastTotalCount (q :: qs) := by
            simp [lastTotalCount, List.getLast?_cons_cons]
          rw [hlast]
          exact hrec

/-- C1 (counterexample): a guard-respecting sequence of two successful
fetches whose second page overflows its own freshly reported total leaves
the accumulated length (6) strictly above the most recently reported
`totalCount` (4), refuting the unconditional bound of the claim; the
length still equals the sum of the page sizes. -/
theorem accumulated_length_can_exceed_latest_totalCount :
    respectsGuardB (resetState (initialState Nat wOpts)) cexPages = true
      ∧ (mergePages (resetState (initialState Nat wOpts)) cexPages).loadedData.payload.length
          = (cexPages.map (fun p => p.payload.length)).sum
      ∧ ¬ (((mergePages (resetState (initialState Nat wOpts)) cexPages).loadedData.payload.length : Int)
            ≤ lastTotalCount cexPages) := by
  decide

/-- C1 (amended): starting from a reset, after any sequence of successful
merges the accumulated length equals the sum of the returned page sizes
(items are concatenated in arrival order), and — provided each page fits
inside the `totalCount` it itself reports — the length never exceeds the
most recently reported `totalCount`. -/
theorem mergePages_length_eq_sum_and_bounded {T : Type} (s : EngineState T)
    (pages : List (DataContainer T))
    (hfit : pagesFitReportedCountB (resetState s) pages = true)
    (hne : pages ≠ []) :
    (mergePages (resetState s) pages).loadedData.payload.length
        = (pages.map (fun p => p.payload.length)).sum
      ∧ ((mergePages (resetState s) pages).loadedData.payload.length : Int)
        ≤ lastTotalCount pages := by
  constructor
  · rw [mergePages_length]
    simp [resetState, defaultData]
  · exact mergePages_le_lastTotalCount pages (resetState s) hfit hne

/-- C1 witness: the amended bound applied to a concrete two-page run whose
pages fit their reported totals. -/
theorem mergePages_length_eq_sum_and_bounded_witness :
    pagesFitReportedCountB (resetState (initialState Nat wOpts)) wPages = true
      ∧ ((mergePages (resetState (initialState Nat wOpts)) wPages).loadedData.payload.length
            = (wPages.map (fun p => p.payload.length)).sum
          ∧ ((mergePages (resetState (initialState Nat wOpts)) wPages).loadedData.payload.length : Int)
            ≤ lastTotalCount wPages) :=
  ⟨by decide, mergePages_length_eq_sum_and_bounded (initialState Nat wOpts) wPages
    (by decide) (by decide)⟩

/-- C4 (counterexample): merging a page that overshoots its reported total
(three accumulated items, reported total two) leaves the all-loaded flag
false although the accumulated count is greater than or equal to the
reported `totalCount`, refuting the claimed `≥` semantics for the ng-select
engine. -/
theorem allLoaded_false_when_length_exceeds_totalCount :
    ((2 : Int) ≤ ((handleApiResponse (resetState (initialState Nat wOpts))
        { payload := [1, 2, 3], totalCount := 2 }).loadedData.payload.length : Int))
      ∧ (handleApiResponse (resetState (initialState Nat wOpts))
          { payload := [1, 2, 3], totalCount := 2 }).isAllDataLoaded = false := by
  decide

/-- C4 (amended): after every merge the ng-select engine sets the
all-loaded flag iff the accumulated length is exactly equal to the newly
reported `totalCount` (it has no unknown sentinel), while the table
helper's `runLimitReachedCheck` sets `limitReached` iff the total is known
(not the `-1` sentinel) and the loaded length is greater than or equal to
it, leaving the flag unchanged otherwise. -/
theorem allLoaded_eq_semantics_and_table_geq_semantics {T : Type}
    (s : EngineState T) (d : DataContainer T) (totalCount : Int)
    (loadedLength : Nat) (limitReached : Bool) :
    ((handleApiResponse s d).isAllDataLoaded = true
        ↔ ((handleApiResponse s d).loadedData.payload.length : Int) = d.totalCount)
      ∧ (runLimitReachedCheck totalCount loadedLength limitReached = true
        ↔ ((totalCount ≠ -1 ∧ totalCount ≤ (loadedLength : Int))
            ∨ (totalCount = -1 ∧ limitReached = true))) := by
  constructor
  · unfold handleApiResponse
    by_cases h : 0 < d.payload.length <;> simp [h]
  · unfold runLimitReachedCheck
    by_cases h : totalCount = -1 <;> simp [h]

/-- C9: a successful response with an empty item array leaves the
accumulated container untouched, still marks the current page successful,
and recomputes the all-loaded flag by comparing the (unchanged) accumulated
length against the newly reported `totalCount`. -/
theorem empty_page_marks_success_and_recomputes_allLoaded {T : Type}
    (s : EngineState T) (d : DataContainer T) (h : d.payload = []) :
    (handleApiResponse s d).loadedData = s.loadedData
      ∧ (handleApiResponse s d).isCurrentPageSuccessful = true
      ∧ ((handleApiResponse s d).isAllDataLoaded = true
          ↔ (s.loadedData.payload.length : Int) = d.totalCount) := by
  unfold handleApiResponse
  simp [h]

/-- C9 witness: an empty page reporting a `totalCount` equal to the single
accumulated item sets the all-loaded flag. -/
theorem empty_page_marks_success_and_recomputes_allLoaded_witness :
    ({ payload := [], totalCount := 1 } : DataContainer Nat).payload = []
      ∧ ((handleApiResponse sAfterP1 { payload := [], totalCount := 1 }).loadedData
            = sAfterP1.loadedData
        ∧ (handleApiResponse sAfterP1 { payload := [], totalCount := 1 }).isCurrentPageSuccessful
            = true
        ∧ ((handleApiResponse sAfterP1 { payload := [], totalCount := 1 }).isAllDataLoaded = true
            ↔ (sAfterP1.loadedData.payload.length : Int) = (1 : Int))) :=
  ⟨rfl, empty_page_marks_success_and_recomputes_allLoaded sAfterP1 _ rfl⟩

/-- C10: with the configured request method GET, `setBody` and `clearBody`
perform no reset and change no engine state at all (the source guards both
bodies behind `requestMethod === "POST"`); chaining is preserved because the
returned instance is the unchanged one. -/
theorem setBody_clearBody_noop_for_get {T : Type} (opts : EngineOptions)
    (s : EngineState T) (value : JVal)
    (h : opts.requestMethod = RequestMethod.get) :
    setBody opts s value = s ∧ clearBody opts s = s := by
  unfold setBody clearBody
  rw [h]
  simp

/-- C10 witness: the no-op applied to a concrete GET-configured engine
state and body value. -/
theorem setBody_clearBody_noop_for_get_witness :
    wOpts.requestMethod = RequestMethod.get
      ∧ (setBody wOpts sAfterP1 (JVal.jstr "x") = sAfterP1
          ∧ clearBody wOpts sAfterP1 = sAfterP1) :=
  ⟨rfl, setBody_clearBody_noop_for_get wOpts sAfterP1 (JVal.jstr "x") rfl⟩

/-- The fetch closure leaves the loading flag cleared whenever it was clear
on entry: a cache hit never touches it, and every network branch ends in
`finalize`. -/
theorem loadDataFromApi_isLoading {T : Type} (opts : EngineOptions)
    (s : EngineState T) (ev : FetchEvent T) (h : s.isLoading = false) :
    (loadDataFromApi opts s ev).state.isLoading = false := by
  unfold loadDataFromApi
  by_cases hc : opts.useCache = true
  · rw [if_pos hc]
    cases hhit : assocGet s.cache (cacheKeyOf opts s) with
    | some cached => simpa using h
    | none => simp only [hhit]; exact networkFetch_isLoading opts s _ ev
  · rw [if_neg hc]
    exact networkFetch_isLoading opts s none ev

/-- C2: when caching is enabled and the built key is present in the cache,
the fetch performs zero transport calls and the run ends in exactly the
state the success-merge routine produces for the cached page; in particular
the current page is marked successful, just as for a fresh successful
network response. -/
theorem cache_hit_zero_transport_and_success_merge {T : Type}
    (opts : EngineOptions) (s : EngineState T) (ev : FetchEvent T)
    (page : DataContainer T) (hc : opts.useCache = true)
    (hhit : assocGet s.cache (cacheKeyOf opts s) = some page) :
    (fetchAndHandle opts s ev).transportCalls = 0
      ∧ (fetchAndHandle opts s ev).state = handleApiResponse s page
      ∧ (fetchAndHandle opts s ev).state.isCurrentPageSuccessful = true := by
  have hload : loadDataFromApi opts s ev =
      { transportCalls := 0, fetchAttempted := true, errorReported := false,
        result := some page, state := s } := by
    unfold loadDataFromApi
    rw [if_pos hc]
    simp [hhit]
  unfold fetchAndHandle
  rw [hload]
  exact ⟨rfl, rfl, handleApiResponse_success_flag s page⟩

/-- C2 witness: a concrete opened caching engine holding one entry keyed
exactly as the engine keys its current coordinates; the fetch is resolved
by a transport error, which is irrelevant because no request is issued. -/
theorem cache_hit_zero_transport_and_success_merge_witness :
    (wCacheOpts.useCache = true
        ∧ assocGet wCacheState.cache (cacheKeyOf wCacheOpts wCacheState) = some wCachedPage)
      ∧ ((fetchAndHandle wCacheOpts wCacheState FetchEvent.transportError).transportCalls = 0
          ∧ (fetchAndHandle wCacheOpts wCacheState FetchEvent.transportError).state
              = handleApiResponse wCacheState wCachedPage
          ∧ (fetchAndHandle wCacheOpts wCacheState
              FetchEvent.transportError).state.isCurrentPageSuccessful = true) :=
  ⟨⟨rfl, by decide⟩,
    cache_hit_zero_transport_and_success_merge wCacheOpts wCacheState
      FetchEvent.transportError wCachedPage rfl (by decide)⟩

/-- C3: the cache-key builder is not order-independent — two
extra-parameter records equal as key/value sets but in different insertion
order (a permutation) produce different key strings, because
`JSON.stringify` renders properties in insertion order; the second half of
the claim does hold: with a non-POST method the key ignores the body
entirely. -/
theorem cache_key_depends_on_insertion_order :
    qpA.Perm qpB
      ∧ buildCacheKey RequestMethod.get "/api/items" JVal.jnull qpA
          ≠ buildCacheKey RequestMethod.get "/api/items" JVal.jnull qpB
      ∧ ∀ b1 b2 : JVal,
          buildCacheKey RequestMethod.get "/api/items" b1 qpA
            = buildCacheKey RequestMethod.get "/api/items" b2 qpA :=
  ⟨by decide, by decide, fun b1 b2 => rfl⟩

/-- C5: after a successful page one, a scroll advances to page two and the
page-two fetch fails with a transport error; because the failure path never
clears `isCurrentPageSuccessful` (only `reset` does), the next scroll
advances to page three, silently skipping the failed page two — the claim
says the page number must stay unchanged after a failed fetch. -/
theorem failed_page_is_skipped_on_next_scroll :
    sAfterP1.currentPage = 1
      ∧ oScroll1.state.currentPage = 2
      ∧ oScroll1.errorReported = true
      ∧ oScroll1.result = none
      ∧ oScroll1.state.isCurrentPageSuccessful = true
      ∧ oScroll2.state.currentPage = 3 := by
  decide

/-- C7: a transport error, and separately a response missing the count key
(a validation error), arriving after page one already succeeded: the error
collaborator runs, loading settles to false and the accumulated data is
untouched, but the last-call flag is left at its previous value `true`
instead of being marked unsuccessful as the claim requires. -/
theorem failure_reports_error_but_success_flag_not_cleared :
    oFail.errorReported = true
      ∧ oFail.state.isLoading = false
      ∧ oFail.state.loadedData = sAfterP1.loadedData
      ∧ oFail.state.isCurrentPageSuccessful = true
      ∧ oInvalid.errorReported = true
      ∧ oInvalid.state.isLoading = false
      ∧ oInvalid.state.loadedData = sAfterP1.loadedData
      ∧ oInvalid.state.isCurrentPageSuccessful = true := by
  decide

/-- C8: every fetch attempt — cache hit, success, validation failure,
transport failure or abort — settles with the public loading signal false
(given it was false when the fetch was issued, which the notification guard
enforces), and the reset that aborts an in-flight fetch also leaves it
false. -/
theorem fetch_always_settles_with_loading_false {T : Type}
    (opts : EngineOptions) (s : EngineState T) (ev : FetchEvent T)
    (h : s.isLoading = false) :
    (fetchAndHandle opts s ev).state.isLoading = false
      ∧ (resetState s).isLoading = false := by
  refine ⟨?_, rfl⟩
  unfold fetchAndHandle
  cases hres : (loadDataFromApi opts s ev).result with
  | some d =>
      simp only [hres]
      rw [handleApiResponse_isLoading]
      exact loadDataFromApi_isLoading opts s ev h
  | none =>
      simp only [hres]
      exact loadDataFromApi_isLoading opts s ev h

/-- C8 witness: the terminal loading state after a transport failure on the
opened engine, and after a reset. -/
theorem fetch_always_settles_with_loading_false_witness :
    wOpenState.isLoading = false
      ∧ ((fetchAndHandle wOpts wOpenState FetchEvent.transportError).state.isLoading = false
          ∧ (resetState wOpenState).isLoading = false) :=
  ⟨rfl, fetch_always_settles_with_loading_false wOpts wOpenState FetchEvent.transportError rfl⟩

/-- C6 (counterexample): with the select panel closed (as it is initially),
a settled non-empty term outside search-only mode performs the reset but
issues no fetch at all — the notification guard drops it — refuting the
claim that every settled term (outside the suppression case) is followed by
a fetch. -/
theorem settled_term_no_fetch_when_panel_closed :
    wOpts.searchOnlyMode = false
      ∧ (initialState Nat wOpts).isSelectPanelOpen = false
      ∧ (onSettledSearchTerm wOpts (initialState Nat wOpts) "john"
          FetchEvent.transportError).fetchAttempted = false
      ∧ (onSettledSearchTerm wOpts (initialState Nat wOpts) "john"
          FetchEvent.transportError).transportCalls = 0 := by
  decide

/-- C6 (amended): every settled search term first runs `reset()`; when
search-only mode is on and the settled term is empty, the fetch is
suppressed entirely and the search text stays cleared; otherwise — provided
the select panel is open — the engine stores the new term and runs exactly
the fetch pipeline of the reset state at page 1 with that term. -/
theorem settled_term_resets_then_fetches_when_panel_open {T : Type}
    (opts : EngineOptions) (s : EngineState T) (term : String)
    (ev : FetchEvent T) (hopen : s.isSelectPanelOpen = true) :
    (opts.searchOnlyMode = true →
        onSettledSearchTerm opts s "" ev
          = { transportCalls := 0, fetchAttempted := false, errorReported := false,
              result := none, state := resetState s })
      ∧ (¬ (opts.searchOnlyMode = true ∧ term = "") →
          onSettledSearchTerm opts s term ev
              = fetchAndHandle opts { resetState s with searchText := some term } ev
            ∧ (onSettledSearchTerm opts s term ev).fetchAttempted = true
            ∧ ({ resetState s with searchText := some term } : EngineState T).currentPage = 1) := by
  constructor
  · intro hmode
    unfold onSettledSearchTerm
    rw [if_pos ⟨hmode, rfl⟩]
  · intro hns
    unfold onSettledSearchTerm
    rw [if_neg hns]
    have hguard :
        ¬ ((({ resetState s with searchText := some term } : EngineState T).isLoading
            || ({ resetState s with searchText := some term } : EngineState T).isAllDataLoaded
            || !({ resetState s with searchText := some term } : EngineState T).isSelectPanelOpen)
          = true) := by
      simp [resetState, hopen]
    refine ⟨?_, ?_, rfl⟩
    · unfold notifyApiCall
      rw [if_neg hguard]
    · unfold notifyApiCall
      rw [if_neg hguard]
      exact fetchAndHandle_attempted opts _ ev

/-- C6 witness: the amended behavior on the concrete opened engine with the
settled term "john". -/
theorem settled_term_resets_then_fetches_when_panel_open_witness :
    wOpenState.isSelectPanelOpen = true
      ∧ ((wOpts.searchOnlyMode = true →
            onSettledSearchTerm wOpts wOpenState "" FetchEvent.transportError
              = { transportCalls := 0, fetchAttempted := false, errorReported := false,
                  result := none, state := resetState wOpenState })
        ∧ (¬ (wOpts.searchOnlyMode = true ∧ "john" = "") →
            onSettledSearchTerm wOpts wOpenState "john" FetchEvent.transportError
                = fetchAndHandle wOpts
                    { resetState wOpenState with searchText := some "john" }
                    FetchEvent.transportError
              ∧ (onSettledSearchTerm wOpts wOpenState "john"
                  FetchEvent.transportError).fetchAttempted = true
              ∧ ({ resetState wOpenState with searchText := some "john" } :
                  EngineState Nat).currentPage = 1)) :=
  ⟨rfl, settled_term_resets_then_fetches_when_panel_open wOpts wOpenState "john"
    FetchEvent.transportError rfl⟩
